import Mathlib

/-!
Verification development for the pharme-study-result-analyses repository.

This file gives a shallow embedding of the core data model and operations of
the repository (time-point resolution, score aggregation, comprehension
grading, the statistical comparison helpers and the results ledger), together
with theorems settling the stated properties.  Python dictionaries are
embedded as association lists, pandas tables as lists of structures, nullable
cells as `Option`, raising code as `Except`, and machine floats that only ever
get compared as an explicit value-or-NaN type.  Library calls whose numeric
content is floating point (Shapiro-Wilk, the t-distribution survival function,
the Mann-Whitney p-value) are abstracted as explicit function parameters; all
repository-level logic is translated directly from the source.
-/

/-- Study time points, from `modules/definitions/types.py` (`TimePoint`).
Each carries a positional index (0, 1, 2) used for row matching. -/
inductive TimePoint where
  | RESULT_RETURN
  | ONE_MONTH_FOLLOW_UP
  | THREE_MONTH_FOLLOW_UP
deriving DecidableEq, Repr

/-- The `index` field of `TimePointDefinition` (0 for t0, 1 for t30, 2 for t90). -/
def TimePoint.index : TimePoint → Nat
  | .RESULT_RETURN => 0
  | .ONE_MONTH_FOLLOW_UP => 1
  | .THREE_MONTH_FOLLOW_UP => 2

/-- The column-name piece of `TimePointDefinition` (field written
as a short textual marker in the source). -/
def TimePoint.tpSuffix : TimePoint → String
  | .RESULT_RETURN => "t0"
  | .ONE_MONTH_FOLLOW_UP => "t30"
  | .THREE_MONTH_FOLLOW_UP => "t90"

/-- Declaration order of the `TimePoint` enum; Python iterates enums in
declaration order (`for other_time_point in TimePoint`). -/
def timePointList : List TimePoint :=
  [.RESULT_RETURN, .ONE_MONTH_FOLLOW_UP, .THREE_MONTH_FOLLOW_UP]

/-- Surveys, from `modules/definitions/types.py` (`Survey`). -/
inductive Survey where
  | DEMOGRAPHICS
  | COMPREHENSION_APP
  | COMPREHENSION_COUNSELING
  | COMPREHENSION
  | HEALTH_LITERACY
  | GENERAL_SELF_EFFICACY
  | BASELINE_KNOWLEDGE
  | KNOWLEDGE
  | SATISFACTION_APP
  | SATISFACTION_COUNSELING
  | SATISFACTION
  | ACTIONS
  | ATTITUDES
  | FEELINGS
  | APP_RATING
deriving DecidableEq, Repr

/-- Study arms, from `modules/definitions/types.py` (`StudyGroup`). -/
inductive StudyGroup where
  | PHARME
  | COUNSELING
deriving DecidableEq, Repr

/-- One survey response row (`modules/survey_results/get_data.py` works on a
pandas `DataFrame` with a `participant_id` column, the `authored_at_gmt` time
marker (`TIME_POINT` constant) and answer columns keyed by question title). -/
structure SurveyRow where
  participant_id : String
  authored_at_gmt : String
  answers : List (String × String)
deriving DecidableEq, Repr

/-- Lexicographic comparison of character lists by code point; this is the
order pandas uses when sorting a string column ascending. -/
def charListLe : List Char → List Char → Bool
  | [], _ => true
  | _ :: _, [] => false
  | a :: as, b :: bs =>
    if a.val < b.val then true
    else if b.val < a.val then false
    else charListLe as bs

/-- String comparison used for the `authored_at_gmt` sort key. -/
def strLe (a b : String) : Bool := charListLe a.data b.data

/-- Insert a row into a list sorted ascending by time marker. -/
def insertByTime (r : SurveyRow) : List SurveyRow → List SurveyRow
  | [] => [r]
  | x :: xs =>
    if strLe r.authored_at_gmt x.authored_at_gmt then r :: x :: xs
    else x :: insertByTime r xs

/-- `participant_data.sort_values(TIME_POINT)`: ascending sort of a
participant's rows by the `authored_at_gmt` marker.  The source uses pandas
`sort_values` with the default `quicksort` kind, which leaves the relative
order of tied keys unspecified; an insertion sort is used here as the
executable model of an ascending sort by that key. -/
def sortByTime : List SurveyRow → List SurveyRow
  | [] => []
  | x :: xs => insertByTime x (sortByTime xs)

/-- One row of the progress table (`PROGRESS_DATA_FILE`): per participant, a
nullable completion marker per (survey, time point) column.  The survey is
fixed throughout one call of `filter_results_by_time_point`, so the cells are
indexed by time point only; `none` models a null/NaN cell. -/
structure ProgressRow where
  participant_id : String
  cells : TimePoint → Option String

/-- `_participant_completed_survey` from
`modules/survey_results/get_data.py`: looks up the participant's progress
cell for the given time point; raises `ThisShouldNeverHappenError` unless the
progress table holds exactly one row for the participant; otherwise the
participant completed the survey at that time point iff the cell is not
null/NaN. -/
def participant_completed_survey (progress : List ProgressRow)
    (participant_id : String) (tp : TimePoint) : Except String Bool :=
  match progress.filter (fun r => r.participant_id == participant_id) with
  | [row] => .ok (row.cells tp).isSome
  | _ => .error "The selected time point should be unique per participant and time point!"

/-- The index-adjustment loop of `filter_results_by_time_point`: walk the time
points in declaration order up to (not including) the requested one, and for
each incomplete earlier time point decrement the positional index. -/
def adjustedIndexM (progress : List ProgressRow) (participant_id : String) :
    List TimePoint → Nat → Except String Nat
  | [], i => .ok i
  | o :: os, i => do
    let completed ← participant_completed_survey progress participant_id o
    adjustedIndexM progress participant_id os (if completed then i else i - 1)

/-- The per-participant body of the loop in `filter_results_by_time_point`
(`modules/survey_results/get_data.py`): sort the participant's rows ascending
by time marker; if the requested time point is incomplete, skip the
participant (`none`, not an error); otherwise compute the skip-adjusted index
and select the row at that position, skipping the participant with a warning
when the index is out of range (`time_point_index > len - 1` on Python ints
is `participant_data.length ≤ i` on naturals). -/
def selectTimePointRow (progress : List ProgressRow) (survey_results : List SurveyRow)
    (participant_id : String) (tp : TimePoint) : Except String (Option SurveyRow) := do
  let participant_data :=
    sortByTime (survey_results.filter (fun r => r.participant_id == participant_id))
  let completed ← participant_completed_survey progress participant_id tp
  if !completed then
    return none
  else
    let i ← adjustedIndexM progress participant_id
      (timePointList.takeWhile (fun o => o.index ≠ tp.index)) tp.index
    if participant_data.length ≤ i then
      return none
    else
      return participant_data.get? i

/-- First-occurrence deduplication, the semantics of
`survey_results[PARTICIPANT_ID].unique()` in pandas. -/
def dedupFirstAux (seen : List String) : List String → List String
  | [] => []
  | a :: l =>
    if a ∈ seen then dedupFirstAux seen l
    else a :: dedupFirstAux (a :: seen) l

/-- Participant ids of a survey table, in order of first occurrence. -/
def uniqueParticipants (survey_results : List SurveyRow) : List String :=
  dedupFirstAux [] (survey_results.map (fun r => r.participant_id))

/-- The participant loop of `filter_results_by_time_point`, collecting the
selected row (if any) of each participant in turn. -/
def collectRowsM (progress : List ProgressRow) (survey_results : List SurveyRow)
    (tp : TimePoint) : List String → Except String (List SurveyRow)
  | [] => .ok []
  | pid :: pids => do
    let r ← selectTimePointRow progress survey_results pid tp
    let rest ← collectRowsM progress survey_results tp pids
    match r with
    | none => .ok rest
    | some row => .ok (row :: rest)

/-- `filter_results_by_time_point` from `modules/survey_results/get_data.py`:
for each distinct participant of the survey table, resolve the requested time
point to a physical row (or skip the participant) and assemble the selected
rows into a table. -/
def filter_results_by_time_point (progress : List ProgressRow)
    (survey_results : List SurveyRow) (tp : TimePoint) : Except String (List SurveyRow) :=
  collectRowsM progress survey_results tp (uniqueParticipants survey_results)

/-! ### Helper lemmas for the time-point resolver -/

theorem except_bind_ok {ε α β : Type} (a : α) (f : α → Except ε β) :
    (Except.ok a >>= f : Except ε β) = f a := rfl

theorem except_bind_error {ε α β : Type} (e : ε) (f : α → Except ε β) :
    (Except.error e >>= f : Except ε β) = Except.error e := rfl

theorem except_pure_eq {ε α : Type} (a : α) :
    (pure a : Except ε α) = Except.ok a := rfl

theorem length_insertByTime (r : SurveyRow) (l : List SurveyRow) :
    (insertByTime r l).length = l.length + 1 := by
  induction l with
  | nil => rfl
  | cons x xs ih =>
    simp only [insertByTime]
    by_cases h : strLe r.authored_at_gmt x.authored_at_gmt = true
    · simp [h]
    · simp [h, List.length_cons, ih]

theorem length_sortByTime (l : List SurveyRow) :
    (sortByTime l).length = l.length := by
  induction l with
  | nil => rfl
  | cons x xs ih => simp [sortByTime, length_insertByTime, ih]

theorem mem_insertByTime (y r : SurveyRow) (l : List SurveyRow) :
    y ∈ insertByTime r l ↔ y = r ∨ y ∈ l := by
  induction l with
  | nil => simp [insertByTime]
  | cons x xs ih =>
    simp only [insertByTime]
    cases hb : strLe r.authored_at_gmt x.authored_at_gmt with
    | true => simp
    | false =>
      simp only [Bool.false_eq_true, if_false, List.mem_cons, ih]
      tauto

theorem mem_sortByTime (y : SurveyRow) (l : List SurveyRow) :
    y ∈ sortByTime l ↔ y ∈ l := by
  induction l with
  | nil => simp [sortByTime]
  | cons x xs ih => simp [sortByTime, mem_insertByTime, ih]

/-- Pure form of the index-adjustment loop, in terms of the participant's
unique progress row. -/
def adjustedFold (prow : ProgressRow) : List TimePoint → Nat → Nat
  | [], i => i
  | o :: os, i => adjustedFold prow os (if (prow.cells o).isSome then i else i - 1)

theorem participant_completed_survey_eq (progress : List ProgressRow)
    (pid : String) (prow : ProgressRow)
    (huniq : progress.filter (fun r => r.participant_id == pid) = [prow])
    (tp : TimePoint) :
    participant_completed_survey progress pid tp = .ok (prow.cells tp).isSome := by
  unfold participant_completed_survey
  rw [huniq]

theorem adjustedIndexM_eq (progress : List ProgressRow) (pid : String)
    (prow : ProgressRow)
    (huniq : progress.filter (fun r => r.participant_id == pid) = [prow]) :
    ∀ (tps : List TimePoint) (i : Nat),
      adjustedIndexM progress pid tps i = .ok (adjustedFold prow tps i) := by
  intro tps
  induction tps with
  | nil => intro i; rfl
  | cons o os ih =>
    intro i
    simp only [adjustedIndexM, adjustedFold,
      participant_completed_survey_eq progress pid prow huniq o, except_bind_ok]
    exact ih (if (prow.cells o).isSome then i else i - 1)

/-- Characterization of `selectTimePointRow` for a participant with a unique
progress row. -/
theorem selectTimePointRow_spec (progress : List ProgressRow)
    (survey_results : List SurveyRow) (pid : String) (prow : ProgressRow)
    (huniq : progress.filter (fun r => r.participant_id == pid) = [prow])
    (tp : TimePoint) :
    selectTimePointRow progress survey_results pid tp =
      .ok (if (prow.cells tp).isSome then
             (let rows := sortByTime (survey_results.filter
               (fun r => r.participant_id == pid));
              let i := adjustedFold prow
                (timePointList.takeWhile (fun o => o.index ≠ tp.index)) tp.index;
              if rows.length ≤ i then none else rows.get? i)
           else none) := by
  unfold selectTimePointRow
  rw [participant_completed_survey_eq progress pid prow huniq tp, except_bind_ok]
  cases hc : (prow.cells tp).isSome with
  | false =>
    simp [except_pure_eq]
  | true =>
    simp only [Bool.not_true, Bool.false_eq_true, if_false, if_true,
      adjustedIndexM_eq progress pid prow huniq, except_bind_ok]
    split <;> simp [except_pure_eq]

theorem selectTimePointRow_mem (progress : List ProgressRow)
    (survey_results : List SurveyRow) (pid : String) (tp : TimePoint)
    (r : SurveyRow)
    (h : selectTimePointRow progress survey_results pid tp = .ok (some r)) :
    r.participant_id = pid := by
  unfold selectTimePointRow at h
  rcases hc : participant_completed_survey progress pid tp with e | c
  · rw [hc, except_bind_error] at h
    exact absurd h (by simp)
  · rw [hc, except_bind_ok] at h
    cases c with
    | false => simp [except_pure_eq] at h
    | true =>
      simp only [Bool.not_true, Bool.false_eq_true, if_false, if_true] at h
      rcases hi : adjustedIndexM progress pid
          (timePointList.takeWhile (fun o => o.index ≠ tp.index)) tp.index with e | i
      · rw [hi, except_bind_error] at h
        exact absurd h (by simp)
      · rw [hi, except_bind_ok] at h
        by_cases hl : (sortByTime (survey_results.filter
            (fun s => s.participant_id == pid))).length ≤ i
        · rw [if_pos hl] at h
          simp [except_pure_eq] at h
        · rw [if_neg hl] at h
          rw [except_pure_eq, Except.ok.injEq] at h
          have hmem : r ∈ sortByTime (survey_results.filter
              (fun s => s.participant_id == pid)) := List.get?_mem h
          rw [mem_sortByTime] at hmem
          exact eq_of_beq (List.mem_filter.mp hmem).2

theorem collectRowsM_mem (progress : List ProgressRow)
    (survey_results : List SurveyRow) (tp : TimePoint) :
    ∀ (pids : List String) (out : List SurveyRow) (r : SurveyRow),
      collectRowsM progress survey_results tp pids = .ok out → r ∈ out →
      ∃ pid ∈ pids, selectTimePointRow progress survey_results pid tp = .ok (some r) := by
  intro pids
  induction pids with
  | nil =>
    intro out r h hr
    simp only [collectRowsM, Except.ok.injEq] at h
    subst h
    simp at hr
  | cons pid pids ih =>
    intro out r h hr
    simp only [collectRowsM] at h
    rcases hs : selectTimePointRow progress survey_results pid tp with e | ropt
    · rw [hs, except_bind_error] at h
      exact absurd h (by simp)
    · rw [hs, except_bind_ok] at h
      rcases hrest : collectRowsM progress survey_results tp pids with e | rest
      · rw [hrest, except_bind_error] at h
        exact absurd h (by simp)
      · rw [hrest, except_bind_ok] at h
        cases ropt with
        | none =>
          rw [Except.ok.injEq] at h
          subst h
          obtain ⟨pid', hpmem, hp⟩ := ih rest r hrest hr
          exact ⟨pid', List.mem_cons_of_mem _ hpmem, hp⟩
        | some row =>
          rw [Except.ok.injEq] at h
          subst h
          rcases List.mem_cons.mp hr with heq | htail
          · subst heq
            exact ⟨pid, List.mem_cons_self _ _, hs⟩
          · obtain ⟨pid', hpmem, hp⟩ := ih rest r hrest htail
            exact ⟨pid', List.mem_cons_of_mem _ hpmem, hp⟩

/-! ### Claims C1 and C2: time-point resolution -/

/-- Claim C1: for a participant whose progress marks T0 and T90 complete but
T30 incomplete (null) and who has at least two physical survey rows,
`filter_results_by_time_point` selects physical row index 1 (second row in
ascending time order) when T90 is requested and no row when T30 is requested;
in general the selected index equals the requested time point's ordinal minus
the number of earlier time points marked incomplete. -/
theorem claim_C1_skip_compensation (progress : List ProgressRow)
    (survey_results : List SurveyRow) (pid : String) (prow : ProgressRow)
    (huniq : progress.filter (fun r => r.participant_id == pid) = [prow])
    (h0 : (prow.cells .RESULT_RETURN).isSome = true)
    (h30 : prow.cells .ONE_MONTH_FOLLOW_UP = none)
    (h90 : (prow.cells .THREE_MONTH_FOLLOW_UP).isSome = true)
    (hlen : 2 ≤ (survey_results.filter (fun r => r.participant_id == pid)).length) :
    selectTimePointRow progress survey_results pid .THREE_MONTH_FOLLOW_UP
        = .ok ((sortByTime (survey_results.filter
            (fun r => r.participant_id == pid))).get? 1)
    ∧ selectTimePointRow progress survey_results pid .ONE_MONTH_FOLLOW_UP = .ok none
    ∧ ∀ (progress' : List ProgressRow) (prow' : ProgressRow) (tp : TimePoint),
        progress'.filter (fun r => r.participant_id == pid) = [prow'] →
        (prow'.cells tp).isSome = true →
        selectTimePointRow progress' survey_results pid tp
          = .ok (let rows := sortByTime (survey_results.filter
                   (fun r => r.participant_id == pid));
                 let k := tp.index - timePointList.countP
                     (fun o => decide (o.index < tp.index) && !(prow'.cells o).isSome);
                 if rows.length ≤ k then none else rows.get? k) := by
  have hrl : (sortByTime (survey_results.filter
      (fun r => r.participant_id == pid))).length
      = (survey_results.filter (fun r => r.participant_id == pid)).length :=
    length_sortByTime _
  refine ⟨?_, ?_, ?_⟩
  · rw [selectTimePointRow_spec progress survey_results pid prow huniq]
    have ht : timePointList.takeWhile
        (fun o => o.index ≠ TimePoint.THREE_MONTH_FOLLOW_UP.index)
        = [.RESULT_RETURN, .ONE_MONTH_FOLLOW_UP] := by decide
    rw [ht]
    simp only [h90, if_true, adjustedFold, h0, h30, Option.isSome_none,
      Option.isSome_some]
    simp only [if_true, Bool.false_eq_true, if_false]
    rw [if_neg (by show ¬ (_ ≤ 2 - 1); omega)]
    rfl
  · rw [selectTimePointRow_spec progress survey_results pid prow huniq]
    simp [h30]
  · intro progress' prow' tp huniq' htp
    rw [selectTimePointRow_spec progress' survey_results pid prow' huniq', htp, if_pos rfl]
    cases tp with
    | RESULT_RETURN =>
      have ht : timePointList.takeWhile
          (fun o => o.index ≠ TimePoint.RESULT_RETURN.index) = [] := by decide
      rw [ht]
      simp [adjustedFold, timePointList, List.countP, List.countP.go, TimePoint.index]
    | ONE_MONTH_FOLLOW_UP =>
      have ht : timePointList.takeWhile
          (fun o => o.index ≠ TimePoint.ONE_MONTH_FOLLOW_UP.index)
          = [.RESULT_RETURN] := by decide
      rw [ht]
      cases ha : (prow'.cells .RESULT_RETURN).isSome <;>
        simp [adjustedFold, ha, timePointList, List.countP, List.countP.go,
          TimePoint.index]
    | THREE_MONTH_FOLLOW_UP =>
      have ht : timePointList.takeWhile
          (fun o => o.index ≠ TimePoint.THREE_MONTH_FOLLOW_UP.index)
          = [.RESULT_RETURN, .ONE_MONTH_FOLLOW_UP] := by decide
      rw [ht]
      cases ha : (prow'.cells .RESULT_RETURN).isSome <;>
        cases hb : (prow'.cells .ONE_MONTH_FOLLOW_UP).isSome <;>
          simp [adjustedFold, ha, hb, timePointList, List.countP, List.countP.go,
            TimePoint.index]

/-- Concrete progress row for the C1/C2 witnesses: T0 and T90 complete,
T30 null. -/
def c1ProgressRow : ProgressRow :=
  ⟨"p1", fun tp => match tp with
    | .RESULT_RETURN => some "2024-01-01"
    | .ONE_MONTH_FOLLOW_UP => none
    | .THREE_MONTH_FOLLOW_UP => some "2024-04-01"⟩

/-- Concrete progress table for the C1/C2 witnesses. -/
def c1Progress : List ProgressRow := [c1ProgressRow]

/-- Concrete survey table for the C1/C2 witnesses: two physical rows for the
participant. -/
def c1Rows : List SurveyRow :=
  [⟨"p1", "2024-01-01", [("q", "a")]⟩, ⟨"p1", "2024-04-01", [("q", "b")]⟩]

/-- Witness for C1 at a concrete input: the hypotheses hold and T90 resolves
to physical row index 1 while T30 resolves to no row. -/
theorem claim_C1_witness :
    (c1Progress.filter (fun r => r.participant_id == "p1") = [c1ProgressRow]
      ∧ (c1ProgressRow.cells .RESULT_RETURN).isSome = true
      ∧ c1ProgressRow.cells .ONE_MONTH_FOLLOW_UP = none
      ∧ (c1ProgressRow.cells .THREE_MONTH_FOLLOW_UP).isSome = true
      ∧ 2 ≤ (c1Rows.filter (fun r => r.participant_id == "p1")).length)
    ∧ selectTimePointRow c1Progress c1Rows "p1" .THREE_MONTH_FOLLOW_UP
        = .ok ((sortByTime (c1Rows.filter (fun r => r.participant_id == "p1"))).get? 1)
    ∧ selectTimePointRow c1Progress c1Rows "p1" .ONE_MONTH_FOLLOW_UP = .ok none :=
  ⟨⟨rfl, rfl, rfl, rfl, by decide⟩,
    (claim_C1_skip_compensation c1Progress c1Rows "p1" c1ProgressRow
      rfl rfl rfl rfl (by decide)).1,
    (claim_C1_skip_compensation c1Progress c1Rows "p1" c1ProgressRow
      rfl rfl rfl rfl (by decide)).2.1⟩

/-- Claim C2: for every participant, survey and time point whose progress
cell is null/NaN, the table returned by `filter_results_by_time_point` for
that time point contains no row for that participant, and this exclusion is
not an error (the participant's resolution succeeds with no row). -/
theorem claim_C2_null_progress_excludes (progress : List ProgressRow)
    (survey_results : List SurveyRow) (tp : TimePoint) (pid : String)
    (prow : ProgressRow)
    (huniq : progress.filter (fun r => r.participant_id == pid) = [prow])
    (hnull : prow.cells tp = none) :
    selectTimePointRow progress survey_results pid tp = .ok none
    ∧ ∀ out, filter_results_by_time_point progress survey_results tp = .ok out →
        ∀ r ∈ out, r.participant_id ≠ pid := by
  constructor
  · rw [selectTimePointRow_spec progress survey_results pid prow huniq]
    simp [hnull]
  · intro out hout r hr heq
    unfold filter_results_by_time_point at hout
    obtain ⟨pid', _, hp⟩ :=
      collectRowsM_mem progress survey_results tp _ out r hout hr
    have hrp : r.participant_id = pid' := selectTimePointRow_mem _ _ _ _ _ hp
    rw [heq] at hrp
    subst hrp
    rw [selectTimePointRow_spec progress survey_results pid prow huniq] at hp
    simp [hnull] at hp

/-- Witness for C2 at a concrete input: T30 is null for the participant, the
resolution succeeds with no row, and the assembled T30 table is empty. -/
theorem claim_C2_witness :
    (c1Progress.filter (fun r => r.participant_id == "p1") = [c1ProgressRow]
      ∧ c1ProgressRow.cells .ONE_MONTH_FOLLOW_UP = none)
    ∧ selectTimePointRow c1Progress c1Rows "p1" .ONE_MONTH_FOLLOW_UP = .ok none :=
  ⟨⟨rfl, rfl⟩,
    (claim_C2_null_progress_excludes c1Progress c1Rows .ONE_MONTH_FOLLOW_UP
      "p1" c1ProgressRow rfl rfl).1⟩

/-! ### Score aggregation (claims C3) -/

/-- Python enum member name of a survey (`survey.name`). -/
def Survey.enumName : Survey → String
  | .DEMOGRAPHICS => "DEMOGRAPHICS"
  | .COMPREHENSION_APP => "COMPREHENSION_APP"
  | .COMPREHENSION_COUNSELING => "COMPREHENSION_COUNSELING"
  | .COMPREHENSION => "COMPREHENSION"
  | .HEALTH_LITERACY => "HEALTH_LITERACY"
  | .GENERAL_SELF_EFFICACY => "GENERAL_SELF_EFFICACY"
  | .BASELINE_KNOWLEDGE => "BASELINE_KNOWLEDGE"
  | .KNOWLEDGE => "KNOWLEDGE"
  | .SATISFACTION_APP => "SATISFACTION_APP"
  | .SATISFACTION_COUNSELING => "SATISFACTION_COUNSELING"
  | .SATISFACTION => "SATISFACTION"
  | .ACTIONS => "ACTIONS"
  | .ATTITUDES => "ATTITUDES"
  | .FEELINGS => "FEELINGS"
  | .APP_RATING => "APP_RATING"

/-- One parsed answer-definition entry for a question: an answer key and an
optional score (`"score" in answer_definition`). -/
structure AnswerDefinition where
  key : String
  score : Option Int
deriving DecidableEq, Repr

/-- The hardcoded fallback 4-point Likert mapping of `get_single_score` for
the Comprehension survey. -/
def comprehensionScores : List (String × Int) :=
  [("strongly_disagree", 1), ("disagree", 2), ("agree", 3), ("strongly_agree", 4)]

/-- `get_single_score` from `modules/survey_results/get_data.py`.  The answer
definitions of the question (the output of `load_answer_definitions`) are
passed in as a list; the raw answer cell is `none` for a NaN cell (which
matches no definition key, as NaN equals nothing in pandas).  Returns the
first definition entry whose key equals the answer: `none` when there is no
match, the explicit score when present, the hardcoded Likert fallback for the
Comprehension survey (a `KeyError` escapes for a non-Likert key), and
`UndefinedScoresError` for any other survey without an explicit score. -/
def get_single_score (survey : Survey) (answer_definitions : List AnswerDefinition)
    (answer : Option String) : Except String (Option Int) :=
  match answer_definitions.find? (fun d => some d.key == answer) with
  | none => .ok none
  | some answer_definition =>
    match answer_definition.score with
    | some answer_score => .ok (some answer_score)
    | none =>
      if survey = Survey.COMPREHENSION then
        match comprehensionScores.lookup answer_definition.key with
        | some answer_score => .ok (some answer_score)
        | none => .error ("KeyError: " ++ answer_definition.key)
      else .error ("Define scores for " ++ survey.enumName)

/-- The per-question loop of `get_defined_scores`: walk the definition-table
question titles, skip questions absent from the row, skip null scores, add
defined scores and remember whether anything was answered. -/
def score_loop (survey : Survey) (answerDefs : String → List AnswerDefinition)
    (row : List (String × Option String)) :
    List String → Int → Bool → Except String (Option Int)
  | [], score, all_not_answered => .ok (if all_not_answered then none else some score)
  | q :: qs, score, all_not_answered =>
    match row.lookup q with
    | none => score_loop survey answerDefs row qs score all_not_answered
    | some answer =>
      match get_single_score survey (answerDefs q) answer with
      | .error e => .error e
      | .ok none => score_loop survey answerDefs row qs score all_not_answered
      | .ok (some answer_score) =>
        score_loop survey answerDefs row qs (score + answer_score) false

/-- The per-participant-row body of `get_defined_scores` from
`modules/survey_results/get_data.py`: starting from score 0 and
`all_not_answered = True`, accumulate the defined scores of the row and
return `(participant_id, None)` when nothing was answered, else the sum. -/
def get_defined_scores_row (survey : Survey)
    (answerDefs : String → List AnswerDefinition) (titles : List String)
    (participant_id : String) (row : List (String × Option String)) :
    Except String (String × Option Int) :=
  (score_loop survey answerDefs row titles 0 true).map (fun s => (participant_id, s))

/-- One participant row of the survey data handed to `get_defined_scores`:
the participant id and the answer cells keyed by question title (`none` for a
NaN cell). -/
structure DataRow where
  participant_id : String
  answers : List (String × Option String)

/-- `get_defined_scores` from `modules/survey_results/get_data.py`: one score
entry per participant row of the survey data, in input order. -/
def get_defined_scores (survey : Survey)
    (answerDefs : String → List AnswerDefinition) (titles : List String) :
    List DataRow → Except String (List (String × Option Int))
  | [] => .ok []
  | row :: rest => do
    let entry ← get_defined_scores_row survey answerDefs titles
      row.participant_id row.answers
    let others ← get_defined_scores survey answerDefs titles rest
    .ok (entry :: others)

/-- The non-null per-question scores of a row, in question order. -/
def definedScores (survey : Survey) (answerDefs : String → List AnswerDefinition)
    (row : List (String × Option String)) (titles : List String) : List Int :=
  titles.filterMap (fun q =>
    match row.lookup q with
    | none => none
    | some answer =>
      match get_single_score survey (answerDefs q) answer with
      | .ok (some s) => some s
      | _ => none)

/-- No question of the row makes `get_single_score` raise. -/
def rowScoresOkB (survey : Survey) (answerDefs : String → List AnswerDefinition)
    (row : List (String × Option String)) (titles : List String) : Bool :=
  titles.all (fun q =>
    match row.lookup q with
    | none => true
    | some answer =>
      match get_single_score survey (answerDefs q) answer with
      | .ok _ => true
      | .error _ => false)

theorem definedScores_cons_none (survey : Survey)
    (answerDefs : String → List AnswerDefinition)
    (row : List (String × Option String)) (q : String) (qs : List String)
    (hl : row.lookup q = none) :
    definedScores survey answerDefs row (q :: qs)
      = definedScores survey answerDefs row qs := by
  simp [definedScores, List.filterMap_cons, hl]

theorem definedScores_cons_skip (survey : Survey)
    (answerDefs : String → List AnswerDefinition)
    (row : List (String × Option String)) (q : String) (qs : List String)
    (answer : Option String) (hl : row.lookup q = some answer)
    (hg : get_single_score survey (answerDefs q) answer = .ok none) :
    definedScores survey answerDefs row (q :: qs)
      = definedScores survey answerDefs row qs := by
  simp [definedScores, List.filterMap_cons, hl, hg]

theorem definedScores_cons_score (survey : Survey)
    (answerDefs : String → List AnswerDefinition)
    (row : List (String × Option String)) (q : String) (qs : List String)
    (answer : Option String) (s : Int) (hl : row.lookup q = some answer)
    (hg : get_single_score survey (answerDefs q) answer = .ok (some s)) :
    definedScores survey answerDefs row (q :: qs)
      = s :: definedScores survey answerDefs row qs := by
  simp [definedScores, List.filterMap_cons, hl, hg]

theorem score_loop_eq (survey : Survey) (answerDefs : String → List AnswerDefinition)
    (row : List (String × Option String)) :
    ∀ (titles : List String), rowScoresOkB survey answerDefs row titles = true →
      ∀ (score : Int) (all_not_answered : Bool),
        score_loop survey answerDefs row titles score all_not_answered
          = .ok (if definedScores survey answerDefs row titles = []
                 then (if all_not_answered then none else some score)
                 else some (score + (definedScores survey answerDefs row titles).sum)) := by
  intro titles
  induction titles with
  | nil => intro _ score all_not_answered; rfl
  | cons q qs ih =>
    intro hok score all_not_answered
    rw [rowScoresOkB, List.all_cons, Bool.and_eq_true] at hok
    obtain ⟨hq, hqs⟩ := hok
    rcases hl : row.lookup q with _ | answer
    · rw [show score_loop survey answerDefs row (q :: qs) score all_not_answered
          = score_loop survey answerDefs row qs score all_not_answered from by
            simp only [score_loop, hl]]
      rw [definedScores_cons_none survey answerDefs row q qs hl]
      exact ih hqs score all_not_answered
    · rcases hg : get_single_score survey (answerDefs q) answer with e | v
      · have hq' : (match get_single_score survey (answerDefs q) answer with
            | .ok _ => true
            | .error _ => false) = true := by
          rw [hl] at hq
          exact hq
        rw [hg] at hq'
        exact Bool.noConfusion hq'
      · cases v with
        | none =>
          rw [show score_loop survey answerDefs row (q :: qs) score all_not_answered
              = score_loop survey answerDefs row qs score all_not_answered from by
                simp only [score_loop, hl, hg]]
          rw [definedScores_cons_skip survey answerDefs row q qs answer hl hg]
          exact ih hqs score all_not_answered
        | some s =>
          rw [show score_loop survey answerDefs row (q :: qs) score all_not_answered
              = score_loop survey answerDefs row qs (score + s) false from by
                simp only [score_loop, hl, hg]]
          rw [ih hqs (score + s) false,
            definedScores_cons_score survey answerDefs row q qs answer s hl hg]
          rcases hds : definedScores survey answerDefs row qs with _ | ⟨d, ds⟩
          · simp
          · simp only [List.cons_ne_self, if_neg, List.sum_cons,
              reduceCtorEq, ite_false]
            rw [Except.ok.injEq, Option.some.injEq]
            ring

/-- Claim C3: for every participant row given to the score aggregator (with
no question raising a scoring error): if every question's answer yields a
null score, the aggregate is null; otherwise the aggregate is the sum of the
non-null per-question scores, null-scoring questions contributing nothing. -/
theorem claim_C3_aggregate_score (survey : Survey)
    (answerDefs : String → List AnswerDefinition) (titles : List String)
    (participant_id : String) (row : List (String × Option String))
    (hok : rowScoresOkB survey answerDefs row titles = true) :
    get_defined_scores_row survey answerDefs titles participant_id row
      = .ok (participant_id,
          if definedScores survey answerDefs row titles = [] then none
          else some (definedScores survey answerDefs row titles).sum) := by
  unfold get_defined_scores_row
  rw [score_loop_eq survey answerDefs row titles hok 0 true]
  rcases hds : definedScores survey answerDefs row titles with _ | ⟨d, ds⟩
  · rfl
  · simp [Except.map]

/-- Question definitions for the C3 witness. -/
def c3AnswerDefs : String → List AnswerDefinition := fun q =>
  if q == "q1" then [⟨"k0", some 0⟩, ⟨"k1", some 1⟩] else [⟨"x", some 5⟩]

/-- Definition-table question titles for the C3 witness. -/
def c3Titles : List String := ["q1", "q2", "q3"]

/-- C3 witness row with exactly one scored answer of value 0 (answers of the
other questions are NaN or absent). -/
def c3RowZero : List (String × Option String) := [("q1", some "k0"), ("q2", none)]

/-- C3 witness row where no question yields a score. -/
def c3RowNull : List (String × Option String) := [("q1", none), ("q2", none)]

/-- Witness for C3 at concrete inputs: a row with a single scored answer of
value 0 aggregates to 0 (not null), and a row with only unscoreable answers
aggregates to null. -/
theorem claim_C3_witness :
    (rowScoresOkB Survey.FEELINGS c3AnswerDefs c3RowZero c3Titles = true
      ∧ rowScoresOkB Survey.FEELINGS c3AnswerDefs c3RowNull c3Titles = true)
    ∧ get_defined_scores_row Survey.FEELINGS c3AnswerDefs c3Titles "p1" c3RowZero
        = .ok ("p1", some 0)
    ∧ get_defined_scores_row Survey.FEELINGS c3AnswerDefs c3Titles "p2" c3RowNull
        = .ok ("p2", none) :=
  ⟨⟨rfl, rfl⟩,
    by rw [claim_C3_aggregate_score Survey.FEELINGS c3AnswerDefs c3Titles "p1"
        c3RowZero rfl]; rfl,
    by rw [claim_C3_aggregate_score Survey.FEELINGS c3AnswerDefs c3Titles "p2"
        c3RowNull rfl]; rfl⟩

/-! ### Comprehension grading (claims C4 and C5) -/

/-- Ground-truth record for one gene of a participant
(`participant_data["genes"][gene]` in
`modules/survey_results/comprehension.py`). -/
structure GeneResult where
  genotype : String
  phenotype : String
deriving DecidableEq, Repr

/-- One line of the comprehension preprocessing log
(`_write_preprocessing_log`); the timestamp and study group are I/O context
and are not modelled. -/
structure LogEntry where
  question : String
  answer : String
  notes : String
deriving DecidableEq, Repr

/-- `MISSING_GENE_QUESTION` from `modules/definitions/constants.py`. -/
def MISSING_GENE_QUESTION : String := "missing gene"

/-- `DPYD_INDETERMINATE_CASTS` from `modules/definitions/constants.py`. -/
def DPYD_INDETERMINATE_CASTS : List String := ["PharMe1060"]

/-- `ONLY_GENOTYPE_ADAPTIONS_COMMUNICATED` from
`modules/definitions/constants.py`. -/
def ONLY_GENOTYPE_ADAPTIONS_COMMUNICATED : List (String × String) :=
  [("PharMe3397", "CYP2C19")]

/-- `ALSO_PHENOTYPE_ADAPTIONS_COMMUNICATED` from
`modules/definitions/constants.py` (empty). -/
def ALSO_PHENOTYPE_ADAPTIONS_COMMUNICATED : List (String × String) := []

/-- ASCII lower-casing of a string (Python `str.lower` on the ASCII
phenotype strings involved). -/
def lowerStr (s : String) : String := ⟨s.data.map Char.toLower⟩

/-- `_analyze_missing_gene` from `modules/survey_results/comprehension.py`:
`"MTHFR"` is always correct; otherwise the answered gene's ground-truth
phenotype is looked up (a missing gene raises a `KeyError`); an
`"indeterminate"` phenotype (case-insensitively) overrides to correct with a
log entry; a `"DPYD"` answer by a participant on the fixed exception list
overrides to correct with a log entry; every other answer is incorrect and
logged, with an informational note appended when the participant's
communicated result was simplified for the answered gene (the merged Python
dict gives the later `ALSO_PHENOTYPE` entries precedence, so they are
consulted first here). -/
def analyze_missing_gene (participant_answer : String)
    (participant_genes : List (String × GeneResult)) (pharme_id : String) :
    Except String (Bool × List LogEntry) :=
  if participant_answer == "MTHFR" then .ok (true, [])
  else
    match participant_genes.lookup participant_answer with
    | none => .error ("KeyError: " ++ participant_answer)
    | some gene_result =>
      if lowerStr gene_result.phenotype == "indeterminate" then
        .ok (true, [⟨MISSING_GENE_QUESTION, participant_answer,
          "Overwriting to true because Indeterminate"⟩])
      else if participant_answer == "DPYD"
          && DPYD_INDETERMINATE_CASTS.contains pharme_id then
        .ok (true, [⟨MISSING_GENE_QUESTION, participant_answer,
          "Overwriting to true because Indeterminate (incomplete preprocessing)"⟩])
      else
        let wrong_answer_message := participant_answer ++ " " ++ gene_result.phenotype
        let result_adaptions_communicated :=
          ALSO_PHENOTYPE_ADAPTIONS_COMMUNICATED ++ ONLY_GENOTYPE_ADAPTIONS_COMMUNICATED
        let msg :=
          if result_adaptions_communicated.lookup pharme_id == some participant_answer
          then wrong_answer_message
            ++ "; ℹ️ participant selected a gene that was simplified in PharMe"
          else wrong_answer_message
        .ok (false, [⟨MISSING_GENE_QUESTION, participant_answer, msg⟩])

/-- Claim C4: the missing-gene verdict is: `"MTHFR"` correct regardless of
ground truth; any other answered gene with ground-truth phenotype
`"Indeterminate"` (case-insensitively) correct with an override log entry; a
`"DPYD"` answer by a participant on the fixed exception list correct with an
override log entry; every other answer incorrect with a log entry. -/
theorem claim_C4_missing_gene (participant_answer : String)
    (participant_genes : List (String × GeneResult)) (pharme_id : String) :
    (participant_answer = "MTHFR" →
      analyze_missing_gene participant_answer participant_genes pharme_id
        = .ok (true, []))
    ∧ (∀ g, participant_answer ≠ "MTHFR" →
        participant_genes.lookup participant_answer = some g →
        lowerStr g.phenotype = "indeterminate" →
        analyze_missing_gene participant_answer participant_genes pharme_id
          = .ok (true, [⟨MISSING_GENE_QUESTION, participant_answer,
              "Overwriting to true because Indeterminate"⟩]))
    ∧ (∀ g, participant_answer = "DPYD" →
        participant_genes.lookup participant_answer = some g →
        lowerStr g.phenotype ≠ "indeterminate" →
        pharme_id ∈ DPYD_INDETERMINATE_CASTS →
        analyze_missing_gene participant_answer participant_genes pharme_id
          = .ok (true, [⟨MISSING_GENE_QUESTION, participant_answer,
              "Overwriting to true because Indeterminate (incomplete preprocessing)"⟩]))
    ∧ (∀ g, participant_answer ≠ "MTHFR" →
        participant_genes.lookup participant_answer = some g →
        lowerStr g.phenotype ≠ "indeterminate" →
        ¬ (participant_answer = "DPYD" ∧ pharme_id ∈ DPYD_INDETERMINATE_CASTS) →
        ∃ notes, analyze_missing_gene participant_answer participant_genes pharme_id
          = .ok (false, [⟨MISSING_GENE_QUESTION, participant_answer, notes⟩])) := by
  refine ⟨?_, ?_, ?_, ?_⟩
  · intro h
    subst h
    rfl
  · intro g hne hl hind
    unfold analyze_missing_gene
    rw [if_neg (by simp [hne])]
    simp only [hl]
    rw [if_pos (by simp [hind])]
  · intro g hd hl hind hcast
    subst hd
    have hcontains : DPYD_INDETERMINATE_CASTS.contains pharme_id = true := by
      simp only [DPYD_INDETERMINATE_CASTS, List.mem_singleton] at hcast
      subst hcast
      decide
    unfold analyze_missing_gene
    rw [if_neg (by decide)]
    simp only [hl]
    rw [if_neg (by simp [hind]), if_pos (by simp [hcontains, hcast])]
  · intro g hne hl hind hnd
    unfold analyze_missing_gene
    rw [if_neg (by simp [hne])]
    simp only [hl]
    rw [if_neg (by simp [hind]), if_neg (by
      intro hb
      rw [Bool.and_eq_true] at hb
      obtain ⟨h1, h2⟩ := hb
      refine hnd ⟨eq_of_beq h1, ?_⟩
      simpa using h2)]
    exact ⟨_, rfl⟩

/-- Concrete gene map for the C4 witness. -/
def c4Genes : List (String × GeneResult) :=
  [("CYP2C9", ⟨"*1/*3", "Indeterminate"⟩), ("DPYD", ⟨"c.1/c.2", "Normal Metabolizer"⟩)]

/-- Witness for C4 at concrete inputs: the indeterminate override, the DPYD
exception-list override, and the MTHFR case. -/
theorem claim_C4_witness :
    ("CYP2C9" ≠ "MTHFR"
      ∧ c4Genes.lookup "CYP2C9" = some ⟨"*1/*3", "Indeterminate"⟩
      ∧ lowerStr "Indeterminate" = "indeterminate"
      ∧ "PharMe1060" ∈ DPYD_INDETERMINATE_CASTS
      ∧ lowerStr "Normal Metabolizer" ≠ "indeterminate")
    ∧ analyze_missing_gene "MTHFR" c4Genes "PharMe0001" = .ok (true, [])
    ∧ analyze_missing_gene "CYP2C9" c4Genes "PharMe0001"
        = .ok (true, [⟨MISSING_GENE_QUESTION, "CYP2C9",
            "Overwriting to true because Indeterminate"⟩])
    ∧ analyze_missing_gene "DPYD" c4Genes "PharMe1060"
        = .ok (true, [⟨MISSING_GENE_QUESTION, "DPYD",
            "Overwriting to true because Indeterminate (incomplete preprocessing)"⟩]) :=
  ⟨⟨by decide, rfl, by decide, by decide, by decide⟩,
    (claim_C4_missing_gene "MTHFR" c4Genes "PharMe0001").1 rfl,
    (claim_C4_missing_gene "CYP2C9" c4Genes "PharMe0001").2.1
      ⟨"*1/*3", "Indeterminate"⟩ (by decide) rfl (by decide),
    (claim_C4_missing_gene "DPYD" c4Genes "PharMe1060").2.2.1
      ⟨"c.1/c.2", "Normal Metabolizer"⟩ rfl rfl (by decide) (by decide)⟩

/-- Replace every occurrence of `pat` by `rep`, scanning left to right
(Python `str.replace`).  The fuel argument, initialized to the text length,
only serves structural termination; it is never exhausted because at least
one character is consumed per step for the non-empty patterns used. -/
def replaceFuel (pat rep : List Char) : Nat → List Char → List Char
  | _, [] => []
  | 0, s => s
  | fuel + 1, c :: rest =>
    if pat.isPrefixOf (c :: rest) then
      rep ++ replaceFuel pat rep fuel ((c :: rest).drop pat.length)
    else c :: replaceFuel pat rep fuel rest

/-- Python `str.replace` on strings. -/
def string_replace (s pat rep : String) : String :=
  ⟨replaceFuel pat.data rep.data s.data.length s.data⟩

/-- The fixed text before the medication name in a medication question. -/
def medicationQuestionIntro : String :=
  "According to your PGx test result, if you ever needed to take the medication "

/-- The fixed text after the medication name in a medication question. -/
def medicationQuestionOutro : String := ", could you take it at standard dosage?"

/-- `get_medication_from_question` from
`modules/survey_results/comprehension.py`: strip the fixed question intro and
outro, leaving the medication name. -/
def get_medication_from_question (question : String) : String :=
  string_replace (string_replace question medicationQuestionIntro "")
    medicationQuestionOutro ""

/-- Fixed per-medication gene and standard-dose-safe phenotype set
(`medication_at_standard_dose_phenotypes` in `_analyze_medication_answer`). -/
structure MedicationRule where
  gene : String
  phenotypes : List String
deriving DecidableEq, Repr

/-- The fixed medication table of `_analyze_medication_answer`. -/
def medication_at_standard_dose_phenotypes : List (String × MedicationRule) :=
  [("ibuprofen", ⟨"CYP2C9",
      ["Normal Metabolizer", "Intermediate Metabolizer", "Indeterminate"]⟩),
   ("simvastatin", ⟨"SLCO1B1",
      ["Increased Function", "Normal Function", "Indeterminate"]⟩),
   ("citalopram", ⟨"CYP2C19",
      ["Rapid Metabolizer", "Normal Metabolizer", "Intermediate Metabolizer",
       "Indeterminate"]⟩),
   ("clopidogrel", ⟨"CYP2C19",
      ["Indeterminate", "Ultrarapid Metabolizer", "Rapid Metabolizer",
       "Normal Metabolizer"]⟩)]

/-- The fixed CYP2C9 genotype-to-activity-score table of
`_analyze_medication_answer` (2.0, 1.5, 1.0, 1.5, 1.0, 0.5, 0.0 as exact
rationals). -/
def cyp2c9_activity_scores : List (String × ℚ) :=
  [("*1/*1", 2), ("*1/*2", 3/2), ("*1/*3", 1), ("*1/*11", 3/2),
   ("*2/*2", 1), ("*2/*3", 1/2), ("*3/*3", 0)]

/-- Structured content of the incorrect-answer log line written by
`_analyze_medication_answer`; the Python code renders the gene, the
phenotype, the optional CYP2C9 activity score and the optional
taking-medication flag into one notes string, which the embedding keeps as
separate fields. -/
structure MedLogEntry where
  question : String
  answer : String
  gene : String
  result_details : String
  activity_score : Option ℚ
  taking_flag : Bool
deriving DecidableEq, Repr

/-- Ground-truth record of one participant
(`comprehension_data[pharme_id]`): the gene map and the string-encoded
"is currently taking" medication map. -/
structure ParticipantData where
  genes : List (String × GeneResult)
  medications : List (String × String)
deriving DecidableEq, Repr

/-- `json.loads` on the string-encoded booleans of the medication map. -/
def jsonLoadsBool : String → Except String Bool
  | "true" => .ok true
  | "false" => .ok false
  | s => .error ("json.loads: " ++ s)

/-- `_analyze_medication_answer` from
`modules/survey_results/comprehension.py`: the expected answer is `"yes"`
exactly when the participant's ground-truth phenotype for the medication's
gene lies in the medication's standard-dose-safe set, and the verdict is
equality of the participant's answer with it; an incorrect answer is logged,
with the activity score looked up from the fixed genotype table for CYP2C9
medications (a genotype absent from the table raises) and a flag when the
participant is taking the medication. -/
def analyze_medication_answer (column : String) (participant_answer : String)
    (participant_data : ParticipantData) : Except String (Bool × List MedLogEntry) :=
  let medication := get_medication_from_question column
  match medication_at_standard_dose_phenotypes.lookup medication with
  | none => .error ("KeyError: " ++ medication)
  | some medication_standard_dose_data =>
    let medication_gene := medication_standard_dose_data.gene
    let standard_dose_phenotypes := medication_standard_dose_data.phenotypes
    match participant_data.genes.lookup medication_gene with
    | none => .error ("KeyError: " ++ medication_gene)
    | some gene_data =>
      let participant_phenotype := gene_data.phenotype
      let correct_answer :=
        if participant_phenotype ∈ standard_dose_phenotypes then "yes" else "no"
      if participant_answer == correct_answer then .ok (true, [])
      else do
        let activity ← (if medication_gene == "CYP2C9" then
            (match cyp2c9_activity_scores.lookup gene_data.genotype with
              | none => Except.error
                  ("Need to extend cyp2c9_activity_scores by " ++ gene_data.genotype)
              | some a => Except.ok (some a))
          else Except.ok (none : Option ℚ))
        let taking_raw ← (match participant_data.medications.lookup medication with
          | none => Except.error ("KeyError: " ++ medication)
          | some raw => Except.ok raw)
        let participant_on_medication ← jsonLoadsBool taking_raw
        .ok (false, [⟨medication, participant_answer, medication_gene,
          participant_phenotype, activity, participant_on_medication⟩])

/-- Claim C5: for a medication-safety question, the expected answer is
`"yes"` exactly when the participant's ground-truth phenotype for the
medication's gene lies in the standard-dose-safe set, the verdict is the
equality of the participant's answer with it; an incorrect answer on a
CYP2C9 medication is logged with the activity score from the fixed genotype
table, and a genotype absent from that table raises a configuration error. -/
theorem claim_C5_medication_safety (column participant_answer : String)
    (participant_data : ParticipantData) (medication : String)
    (rule : MedicationRule) (g : GeneResult)
    (hmed : get_medication_from_question column = medication)
    (hrule : medication_at_standard_dose_phenotypes.lookup medication = some rule)
    (hg : participant_data.genes.lookup rule.gene = some g) :
    (∀ b log, analyze_medication_answer column participant_answer participant_data
        = .ok (b, log) →
      b = (participant_answer
        == (if g.phenotype ∈ rule.phenotypes then "yes" else "no")))
    ∧ (participant_answer = (if g.phenotype ∈ rule.phenotypes then "yes" else "no") →
        analyze_medication_answer column participant_answer participant_data
          = .ok (true, []))
    ∧ (∀ a raw taking,
        participant_answer ≠ (if g.phenotype ∈ rule.phenotypes then "yes" else "no") →
        rule.gene = "CYP2C9" →
        cyp2c9_activity_scores.lookup g.genotype = some a →
        participant_data.medications.lookup medication = some raw →
        jsonLoadsBool raw = .ok taking →
        analyze_medication_answer column participant_answer participant_data
          = .ok (false, [⟨medication, participant_answer, rule.gene, g.phenotype,
              some a, taking⟩]))
    ∧ (participant_answer ≠ (if g.phenotype ∈ rule.phenotypes then "yes" else "no") →
        rule.gene = "CYP2C9" →
        cyp2c9_activity_scores.lookup g.genotype = none →
        analyze_medication_answer column participant_answer participant_data
          = .error ("Need to extend cyp2c9_activity_scores by " ++ g.genotype)) := by
  have hred : analyze_medication_answer column participant_answer participant_data
      = (if participant_answer
            == (if g.phenotype ∈ rule.phenotypes then "yes" else "no") then
           .ok (true, [])
         else do
           let activity ← (if rule.gene == "CYP2C9" then
               (match cyp2c9_activity_scores.lookup g.genotype with
                 | none => Except.error
                     ("Need to extend cyp2c9_activity_scores by " ++ g.genotype)
                 | some a => Except.ok (some a))
             else Except.ok (none : Option ℚ))
           let taking_raw ← (match participant_data.medications.lookup medication with
             | none => Except.error ("KeyError: " ++ medication)
             | some raw => Except.ok raw)
           let participant_on_medication ← jsonLoadsBool taking_raw
           Except.ok (false, [⟨medication, participant_answer, rule.gene, g.phenotype,
             activity, participant_on_medication⟩])) := by
    unfold analyze_medication_answer
    rw [hmed]
    simp only [hrule, hg]
  refine ⟨?_, ?_, ?_, ?_⟩
  · intro b log hok
    rw [hred] at hok
    by_cases hac : (participant_answer
        == (if g.phenotype ∈ rule.phenotypes then "yes" else "no")) = true
    · rw [if_pos hac] at hok
      rw [Except.ok.injEq, Prod.mk.injEq] at hok
      rw [← hok.1, hac]
    · rw [if_neg hac] at hok
      rw [Bool.not_eq_true] at hac
      rw [hac]
      rcases hcg : (rule.gene == "CYP2C9") with _ | _
      · rw [if_neg (by rw [hcg]; exact Bool.false_ne_true), except_bind_ok] at hok
        rcases hlm : participant_data.medications.lookup medication with _ | raw <;>
          rw [hlm] at hok
        · rw [except_bind_error] at hok
          exact absurd hok (by simp)
        · rw [except_bind_ok] at hok
          rcases hjb : jsonLoadsBool raw with e | t <;> rw [hjb] at hok
          · rw [except_bind_error] at hok
            exact absurd hok (by simp)
          · rw [except_bind_ok, Except.ok.injEq, Prod.mk.injEq] at hok
            exact hok.1.symm
      · rw [if_pos hcg] at hok
        rcases hla : cyp2c9_activity_scores.lookup g.genotype with _ | a <;>
          rw [hla] at hok
        · rw [except_bind_error] at hok
          exact absurd hok (by simp)
        · rw [except_bind_ok] at hok
          rcases hlm : participant_data.medications.lookup medication with _ | raw <;>
            rw [hlm] at hok
          · rw [except_bind_error] at hok
            exact absurd hok (by simp)
          · rw [except_bind_ok] at hok
            rcases hjb : jsonLoadsBool raw with e | t <;> rw [hjb] at hok
            · rw [except_bind_error] at hok
              exact absurd hok (by simp)
            · rw [except_bind_ok, Except.ok.injEq, Prod.mk.injEq] at hok
              exact hok.1.symm
  · intro hc
    rw [hred, if_pos (by simp [hc])]
  · intro a raw taking hnc hcg hla hlm hjb
    rw [hred, if_neg (by simp [hnc]), hcg, if_pos (by decide), hla, except_bind_ok,
      hlm, except_bind_ok, hjb, except_bind_ok]
  · intro hnc hcg hla
    rw [hred, if_neg (by simp [hnc]), hcg, if_pos (by decide), hla, except_bind_error]

/-- The ibuprofen medication-safety question for the C5 witness. -/
def c5Column : String :=
  "According to your PGx test result, if you ever needed to take the medication ibuprofen, could you take it at standard dosage?"

/-- The ibuprofen rule of the fixed medication table. -/
def c5Rule : MedicationRule :=
  ⟨"CYP2C9", ["Normal Metabolizer", "Intermediate Metabolizer", "Indeterminate"]⟩

/-- Ground truth for the C5 witness: CYP2C9 Normal Metabolizer with genotype
`*1/*2`, currently taking ibuprofen. -/
def c5Data : ParticipantData :=
  ⟨[("CYP2C9", ⟨"*1/*2", "Normal Metabolizer"⟩)], [("ibuprofen", "true")]⟩

set_option maxRecDepth 8192 in
/-- Witness for C5 at a concrete input: with ground-truth phenotype
"Normal Metabolizer" (in the safe set), "yes" for ibuprofen is correct and
"no" is incorrect and logged with activity score 1.5 for genotype `*1/*2`. -/
theorem claim_C5_witness :
    (get_medication_from_question c5Column = "ibuprofen"
      ∧ medication_at_standard_dose_phenotypes.lookup "ibuprofen" = some c5Rule
      ∧ c5Data.genes.lookup c5Rule.gene = some ⟨"*1/*2", "Normal Metabolizer"⟩
      ∧ "no" ≠ (if ("Normal Metabolizer" : String) ∈ c5Rule.phenotypes
                then "yes" else "no")
      ∧ cyp2c9_activity_scores.lookup "*1/*2" = some (3/2)
      ∧ c5Data.medications.lookup "ibuprofen" = some "true"
      ∧ jsonLoadsBool "true" = .ok true)
    ∧ analyze_medication_answer c5Column "yes" c5Data = .ok (true, [])
    ∧ analyze_medication_answer c5Column "no" c5Data
        = .ok (false, [⟨"ibuprofen", "no", "CYP2C9", "Normal Metabolizer",
            some (3/2), true⟩]) :=
  ⟨⟨by decide, rfl, rfl, by decide, rfl, rfl, rfl⟩,
    (claim_C5_medication_safety c5Column "yes" c5Data "ibuprofen" c5Rule
      ⟨"*1/*2", "Normal Metabolizer"⟩ (by decide) rfl rfl).2.1 (by decide),
    (claim_C5_medication_safety c5Column "no" c5Data "ibuprofen" c5Rule
      ⟨"*1/*2", "Normal Metabolizer"⟩ (by decide) rfl rfl).2.2.1
      (3/2) "true" true (by decide) rfl rfl rfl rfl⟩

/-! ### Non-inferiority test (claim C6) -/

/-- `np.mean` of a list of rationals. -/
def listMean (xs : List ℚ) : ℚ := xs.sum / xs.length

/-- Square of `np.std(xs)` (population standard deviation, `ddof = 0`), an
exact rational; only the square of the standard deviation enters the t
statistic. -/
def npVarianceP (xs : List ℚ) : ℚ :=
  (xs.map (fun x => (x - listMean xs) ^ 2)).sum / xs.length

/-- Pooled variance used by `scipy.stats.ttest_ind_from_stats` (default
`equal_var=True`), from the two squared standard deviations. -/
def pooledVariance (s1sq : ℚ) (n1 : ℕ) (s2sq : ℚ) (n2 : ℕ) : ℚ :=
  (((n1 : ℚ) - 1) * s1sq + ((n2 : ℚ) - 1) * s2sq) / ((n1 : ℚ) + (n2 : ℚ) - 2)

/-- Square of the t statistic of `ttest_ind_from_stats`, whose value is
`t = (mean1 - mean2) / sqrt(pooledVariance * (1/n1 + 1/n2))`. -/
def tStatSq (mean1 s1sq : ℚ) (n1 : ℕ) (mean2 s2sq : ℚ) (n2 : ℕ) : ℚ :=
  (mean1 - mean2) ^ 2
    / (pooledVariance s1sq n1 s2sq n2 * (1 / (n1 : ℚ) + 1 / (n2 : ℚ)))

/-- Degrees of freedom of the two-sample t-test. -/
def tTestDof (n1 n2 : ℕ) : ℕ := n1 + n2 - 2

/-- The margin-shifted threshold of `_test_non_inferiority_with_t_test`
(`control_group_mean - relative_difference * control_group_mean`). -/
def niThreshold (control_group_data : List ℚ) (relative_difference : ℚ) : ℚ :=
  listMean control_group_data - relative_difference * listMean control_group_data

/-- `_test_non_inferiority_with_t_test` from `modules/utils/statistics.py`:
shift the control mean by the margin, run `ttest_ind_from_stats` against the
test-cohort statistics, and halve the two-sided p-value.  The two-sided
p-value of the t-test is `2·SF(|t|; dof)` with `SF` the t-distribution
survival function, a floating-point function of the pair (t², dof) only,
abstracted here as the explicit parameter `sf` of that pair. -/
def test_non_inferiority_with_t_test (sf : ℚ → ℕ → ℚ)
    (control_group_data test_group_data : List ℚ)
    (relative_difference : ℚ) : ℚ :=
  let threshold := niThreshold control_group_data relative_difference
  let two_sided_pvalue :=
    sf (tStatSq threshold (npVarianceP control_group_data)
        control_group_data.length (listMean test_group_data)
        (npVarianceP test_group_data) test_group_data.length)
      (tTestDof control_group_data.length test_group_data.length)
  two_sided_pvalue / 2

/-- `_test_non_inferiority_with_mann_whitney` from
`modules/utils/statistics.py`: one-sided Mann-Whitney-U of the margin-shifted
control data against the test data; the rank-based p-value of
`pingouin.mwu(..., alternative="less")` is abstracted as the parameter
`mwuLess`. -/
def test_non_inferiority_with_mann_whitney (mwuLess : List ℚ → List ℚ → ℚ)
    (control_group_data test_group_data : List ℚ)
    (relative_difference : ℚ) : ℚ :=
  mwuLess
    (control_group_data.map (fun value => value - value * relative_difference))
    test_group_data

/-- Result of `test_non_inferiority_between_study_groups`: the t-test branch
returns a (statistic, one-sided p) pair of which the p-value is modelled
(the statistic itself involves a real square root), the Mann-Whitney branch
returns the p-value. -/
inductive NonInferiorityResult where
  | tTest (p_value : ℚ)
  | mannWhitney (p_value : ℚ)
deriving DecidableEq, Repr

/-- `test_non_inferiority_between_study_groups` from
`modules/utils/statistics.py`: a Shapiro-Wilk normality gate (floating-point,
abstracted as the Boolean `samples_are_normal`: both groups pass) chooses
between the shifted t-test and the one-sided Mann-Whitney-U test. -/
def test_non_inferiority_between_study_groups (samples_are_normal : Bool)
    (sf : ℚ → ℕ → ℚ) (mwuLess : List ℚ → List ℚ → ℚ)
    (control_group_data test_group_data : List ℚ)
    (relative_difference : ℚ) : NonInferiorityResult :=
  if samples_are_normal then
    .tTest (test_non_inferiority_with_t_test sf control_group_data
      test_group_data relative_difference)
  else
    .mannWhitney (test_non_inferiority_with_mann_whitney mwuLess
      control_group_data test_group_data relative_difference)

/-- Control cohort with mean 20 for the C6 analysis. -/
def c6ControlData : List ℚ := [19, 20, 21]

/-- Test cohort with mean 21 (exceeding the control mean). -/
def c6SuperiorTestData : List ℚ := [20, 21, 22]

/-- Test cohort with mean 15 (below the non-inferiority threshold 18). -/
def c6InferiorTestData : List ℚ := [14, 15, 16]

theorem c6_t_test_p_symmetric (sf : ℚ → ℕ → ℚ) :
    test_non_inferiority_with_t_test sf c6ControlData c6SuperiorTestData (1/10)
      = test_non_inferiority_with_t_test sf c6ControlData c6InferiorTestData (1/10) := by
  have harg : tStatSq (niThreshold c6ControlData (1/10)) (npVarianceP c6ControlData)
      c6ControlData.length (listMean c6SuperiorTestData)
      (npVarianceP c6SuperiorTestData) c6SuperiorTestData.length
      = tStatSq (niThreshold c6ControlData (1/10)) (npVarianceP c6ControlData)
      c6ControlData.length (listMean c6InferiorTestData)
      (npVarianceP c6InferiorTestData) c6InferiorTestData.length := by
    unfold tStatSq pooledVariance niThreshold npVarianceP listMean
      c6ControlData c6SuperiorTestData c6InferiorTestData
    norm_num
  simp only [test_non_inferiority_with_t_test]
  rw [harg]
  rfl

/-- The strict p-value inequality asserted by claim C6 at the concrete
cohorts (control mean 20, superior test mean 21 above the control mean,
inferior test mean 15 below the threshold 18, relative margin 0.1) fails for
every possible two-sided-p transform `sf` — in particular for the actual
t-distribution survival function: the two one-sided p-values are equal. -/
def c6ClaimInequalityFails : Prop :=
  ∀ sf : ℚ → ℕ → ℚ,
    ¬ (test_non_inferiority_with_t_test sf c6ControlData c6SuperiorTestData (1/10)
        < test_non_inferiority_with_t_test sf c6ControlData c6InferiorTestData (1/10))

/-- Counterexample to claim C6: the t-test branch of the non-inferiority test
is not directionally sensitive.  With equal sample sizes and spreads, a test
mean of 21 (above the control mean 20) and a test mean of 15 (below the
threshold 18) produce the same squared t statistic 81/4 and the same degrees
of freedom, hence the same halved two-sided p-value, never a strictly smaller
one. -/
theorem claim_C6_counterexample : c6ClaimInequalityFails := by
  intro sf
  rw [c6_t_test_p_symmetric sf]
  exact lt_irrefl _

/-- Claim C6 (amended): the t-test branch halves a two-sided p-value that
depends on the t statistic only through its square and the degrees of
freedom, so for cohorts with equal sizes and spreads whose means lie
symmetric about the margin-shifted threshold (test mean 21 vs test mean 15
against control mean 20 with margin 0.1) the returned one-sided p-values are
equal — not strictly ordered; the branch structure is as claimed: when both
samples pass the normality gate the t-test branch (p = two-sided p / 2
against the margin-shifted control mean) is taken, otherwise the one-sided
Mann-Whitney-U branch. -/
theorem claim_C6_non_inferiority_amended :
    (∀ sf : ℚ → ℕ → ℚ,
      test_non_inferiority_with_t_test sf c6ControlData c6SuperiorTestData (1/10)
        = test_non_inferiority_with_t_test sf c6ControlData c6InferiorTestData (1/10))
    ∧ (∀ (sf : ℚ → ℕ → ℚ) (control test : List ℚ) (rd : ℚ),
        test_non_inferiority_with_t_test sf control test rd
          = sf (tStatSq (niThreshold control rd) (npVarianceP control)
                control.length (listMean test) (npVarianceP test) test.length)
              (tTestDof control.length test.length) / 2)
    ∧ (∀ (sf : ℚ → ℕ → ℚ) (mwuLess : List ℚ → List ℚ → ℚ)
        (control test : List ℚ) (rd : ℚ),
        test_non_inferiority_between_study_groups true sf mwuLess control test rd
          = .tTest (test_non_inferiority_with_t_test sf control test rd)
        ∧ test_non_inferiority_between_study_groups false sf mwuLess control test rd
          = .mannWhitney (test_non_inferiority_with_mann_whitney mwuLess
              control test rd)) :=
  ⟨c6_t_test_p_symmetric,
   fun _ _ _ _ => rfl,
   fun _ _ _ _ _ => ⟨rfl, rfl⟩⟩

/-! ### Paired categorical comparison (claim C7) -/

/-- Insert a string into a sorted list (ascending code-point order). -/
def insertStr (s : String) : List String → List String
  | [] => [s]
  | x :: xs => if strLe s x then s :: x :: xs else x :: insertStr s xs

/-- Sort a list of strings ascending, the order in which pandas `crosstab`
lists its row and column categories. -/
def sortStr : List String → List String
  | [] => []
  | x :: xs => insertStr x (sortStr xs)

/-- The distinct categories of a column, sorted as in a pandas `crosstab`
index. -/
def crosstabCats (xs : List String) : List String :=
  sortStr (dedupFirstAux [] xs)

/-- Count of pairs equal to `(a, b)`: one cell of the paired crosstab. -/
def crosstabCount (pairs : List (String × String)) (a b : String) : ℕ :=
  pairs.countP (fun p => p.1 == a && p.2 == b)

/-- `pandas.crosstab(paired_first_data[column], paired_second_data[column])`
as a matrix of counts over the sorted distinct row and column categories. -/
def crosstabTable (pairs : List (String × String)) : List (List ℕ) :=
  (crosstabCats (pairs.map Prod.fst)).map (fun a =>
    (crosstabCats (pairs.map Prod.snd)).map (fun b => crosstabCount pairs a b))

/-- Outcome of `are_time_points_different_categorical`: the degenerate
short-circuits carry their p-value, effect size (`none` models float NaN)
and note; the McNemar branch carries the crosstab on which the
`statsmodels` `mcnemar` p-value and the φ coefficient `sqrt(χ²/n)` (both
floating point) are computed. -/
inductive McNemarOutcome where
  | degenerate (p_value : Option ℚ) (effect_size : Option ℚ) (notes : String)
  | mcnemarTest (table : List (List ℕ))
deriving DecidableEq, Repr

/-- `are_time_points_different_categorical` from
`modules/utils/statistics.py`, applied to the participant-paired answer
pairs produced by `_get_paired_data`: an empty crosstab yields NaN p and NaN
effect with note "No paired data"; a 1×1 crosstab yields p = 1 and effect =
1 with note "Same paired data"; a crosstab with a dimension above 2 raises;
otherwise McNemar's test runs on the table. -/
def are_time_points_different_categorical (pairs : List (String × String)) :
    Except String McNemarOutcome :=
  let table := crosstabTable pairs
  let rowCount := (crosstabCats (pairs.map Prod.fst)).length
  let colCount := (crosstabCats (pairs.map Prod.snd)).length
  if rowCount = 0 then .ok (.degenerate none none "No paired data")
  else if rowCount = 1 ∧ colCount = 1 then
    .ok (.degenerate (some 1) (some 1) "Same paired data")
  else if rowCount > 2 ∨ colCount > 2 then
    .error "No 2x2 table; adapt data or implement Bhapkar test!"
  else .ok (.mcnemarTest table)

theorem perm_insertStr (s : String) (l : List String) :
    (insertStr s l).Perm (s :: l) := by
  induction l with
  | nil => exact List.Perm.refl _
  | cons x xs ih =>
    simp only [insertStr]
    by_cases h : strLe s x = true
    · simp [h]
    · simp only [h, if_false]
      exact ((ih.cons x).trans (List.Perm.swap s x xs))

theorem perm_sortStr (l : List String) : (sortStr l).Perm l := by
  induction l with
  | nil => exact List.Perm.refl _
  | cons x xs ih => exact (perm_insertStr x (sortStr xs)).trans (ih.cons x)

theorem mem_dedupFirstAux (a : String) :
    ∀ (l seen : List String), a ∈ dedupFirstAux seen l ↔ (a ∈ l ∧ a ∉ seen) := by
  intro l
  induction l with
  | nil => intro seen; simp [dedupFirstAux]
  | cons b bs ih =>
    intro seen
    by_cases hb : b ∈ seen
    · rw [dedupFirstAux, if_pos hb, ih seen]
      constructor
      · exact fun ⟨h1, h2⟩ => ⟨List.mem_cons_of_mem b h1, h2⟩
      · rintro ⟨hor, hns⟩
        rcases List.mem_cons.mp hor with rfl | hmem
        · exact absurd hb hns
        · exact ⟨hmem, hns⟩
    · rw [dedupFirstAux, if_neg hb]
      rw [List.mem_cons, ih (b :: seen)]
      constructor
      · rintro (rfl | ⟨h1, h2⟩)
        · exact ⟨List.mem_cons_self _ _, hb⟩
        · exact ⟨List.mem_cons_of_mem b h1,
            fun hs => h2 (List.mem_cons_of_mem b hs)⟩
      · rintro ⟨hor, hns⟩
        rcases List.mem_cons.mp hor with rfl | hmem
        · exact Or.inl rfl
        · by_cases hab : a = b
          · exact Or.inl hab
          · exact Or.inr ⟨hmem, fun hs => by
              rcases List.mem_cons.mp hs with h | h
              · exact hab h
              · exact hns h⟩

theorem nodup_dedupFirstAux :
    ∀ (l seen : List String), (dedupFirstAux seen l).Nodup := by
  intro l
  induction l with
  | nil => intro seen; simp [dedupFirstAux]
  | cons b bs ih =>
    intro seen
    by_cases hb : b ∈ seen
    · rw [dedupFirstAux, if_pos hb]
      exact ih seen
    · rw [dedupFirstAux, if_neg hb]
      refine List.nodup_cons.mpr ⟨?_, ih (b :: seen)⟩
      intro hmem
      exact ((mem_dedupFirstAux b bs (b :: seen)).mp hmem).2
        (List.mem_cons_self _ _)

theorem mem_crosstabCats (a : String) (xs : List String) :
    a ∈ crosstabCats xs ↔ a ∈ xs := by
  rw [crosstabCats, (perm_sortStr _).mem_iff, mem_dedupFirstAux]
  simp

theorem nodup_crosstabCats (xs : List String) : (crosstabCats xs).Nodup :=
  (perm_sortStr _).nodup_iff.mpr (nodup_dedupFirstAux xs [])

theorem crosstabCats_eq_nil (xs : List String) :
    crosstabCats xs = [] ↔ xs = [] := by
  constructor
  · intro h
    cases xs with
    | nil => rfl
    | cons a l =>
      have hmem : a ∈ crosstabCats (a :: l) :=
        (mem_crosstabCats a _).mpr (List.mem_cons_self _ _)
      rw [h] at hmem
      simp at hmem
  · rintro rfl
    rfl

theorem crosstabCats_length_one (xs : List String) (hne : xs ≠ [])
    (hall : ∀ a ∈ xs, ∀ b ∈ xs, a = b) : (crosstabCats xs).length = 1 := by
  rcases hcats : crosstabCats xs with _ | ⟨u, _ | ⟨v, rest⟩⟩
  · exact absurd ((crosstabCats_eq_nil xs).mp hcats) hne
  · rfl
  · exfalso
    have hnd := nodup_crosstabCats xs
    rw [hcats] at hnd
    have huv : u ≠ v := by
      rcases List.nodup_cons.mp hnd with ⟨hu, _⟩
      exact fun h => hu (h ▸ List.mem_cons_self _ _)
    have hu : u ∈ xs := by
      refine (mem_crosstabCats u xs).mp ?_
      rw [hcats]
      exact List.mem_cons_self _ _
    have hv : v ∈ xs := by
      refine (mem_crosstabCats v xs).mp ?_
      rw [hcats]
      exact List.mem_cons_of_mem _ (List.mem_cons_self _ _)
    exact huv (hall u hu v hv)

theorem all_eq_of_cats_length_one (xs : List String)
    (h : (crosstabCats xs).length = 1) : ∀ a ∈ xs, ∀ b ∈ xs, a = b := by
  rcases hcats : crosstabCats xs with _ | ⟨u, _ | ⟨v, rest⟩⟩
  · rw [hcats] at h
    simp at h
  · intro a ha b hb
    have ha' : a ∈ crosstabCats xs := (mem_crosstabCats a xs).mpr ha
    have hb' : b ∈ crosstabCats xs := (mem_crosstabCats b xs).mpr hb
    rw [hcats] at ha' hb'
    simp only [List.mem_singleton] at ha' hb'
    rw [ha', hb']
  · rw [hcats] at h
    simp at h

theorem three_distinct_of_nodup (l : List String) (hn : l.Nodup)
    (hl : 3 ≤ l.length) :
    ∃ a ∈ l, ∃ b ∈ l, ∃ c ∈ l, a ≠ b ∧ a ≠ c ∧ b ≠ c := by
  rcases l with _ | ⟨a, _ | ⟨b, _ | ⟨c, rest⟩⟩⟩
  · simp at hl
  · simp at hl
  · simp at hl
  · obtain ⟨ha, hnd1⟩ := List.nodup_cons.mp hn
    obtain ⟨hb, _⟩ := List.nodup_cons.mp hnd1
    refine ⟨a, List.mem_cons_self _ _, b,
      List.mem_cons_of_mem _ (List.mem_cons_self _ _), c,
      List.mem_cons_of_mem _ (List.mem_cons_of_mem _ (List.mem_cons_self _ _)),
      ?_, ?_, ?_⟩
    · exact fun h => ha (h ▸ List.mem_cons_self _ _)
    · exact fun h => ha (h ▸ List.mem_cons_of_mem _ (List.mem_cons_self _ _))
    · exact fun h => hb (h ▸ List.mem_cons_self _ _)

theorem le_length_of_three_distinct (l : List String) (a b c : String)
    (ha : a ∈ l) (hb : b ∈ l) (hc : c ∈ l)
    (hab : a ≠ b) (hac : a ≠ c) (hbc : b ≠ c) : 3 ≤ l.length := by
  have hsub : ({a, b, c} : Finset String) ⊆ l.toFinset := by
    intro x hx
    rw [List.mem_toFinset]
    rcases Finset.mem_insert.mp hx with rfl | hx
    · exact ha
    rcases Finset.mem_insert.mp hx with rfl | hx
    · exact hb
    · rw [Finset.mem_singleton] at hx
      subst hx
      exact hc
  have hcard : ({a, b, c} : Finset String).card = 3 := by
    rw [Finset.card_insert_of_not_mem (by simp [hab, hac]),
      Finset.card_insert_of_not_mem (by simp [hbc]), Finset.card_singleton]
  calc 3 = ({a, b, c} : Finset String).card := hcard.symm
    _ ≤ l.toFinset.card := Finset.card_le_card hsub
    _ ≤ l.length := l.toFinset_card_le

/-- A column with no three pairwise-distinct values has at most two crosstab
categories. -/
def hasThreeDistinct (xs : List String) : Prop :=
  ∃ a ∈ xs, ∃ b ∈ xs, ∃ c ∈ xs, a ≠ b ∧ a ≠ c ∧ b ≠ c

/-- All paired answers agree in both coordinates (the 1×1-crosstab
condition). -/
def allPairsSame (pairs : List (String × String)) : Prop :=
  ∀ p ∈ pairs, ∀ q ∈ pairs, p.1 = q.1 ∧ p.2 = q.2

theorem crosstabCats_length_le_two (xs : List String)
    (h : ¬ hasThreeDistinct xs) : (crosstabCats xs).length ≤ 2 := by
  by_contra hgt
  obtain ⟨a, ha, b, hb, c, hc, hab, hac, hbc⟩ :=
    three_distinct_of_nodup _ (nodup_crosstabCats xs) (by omega)
  exact h ⟨a, (mem_crosstabCats a xs).mp ha, b, (mem_crosstabCats b xs).mp hb,
    c, (mem_crosstabCats c xs).mp hc, hab, hac, hbc⟩

/-- Claim C7: for a paired categorical comparison, an empty crosstab of
paired answers gives p = NaN, effect = NaN, note "No paired data"; a 1×1
crosstab (identical pairs) gives p = 1, effect = 1 with an explanatory note;
a crosstab dimension above 2 raises instead of returning a result; otherwise
McNemar's test on the 2×2 table is returned (with the φ effect size computed
from it). -/
theorem claim_C7_paired_categorical (pairs : List (String × String)) :
    (pairs = [] →
      are_time_points_different_categorical pairs
        = .ok (.degenerate none none "No paired data"))
    ∧ (pairs ≠ [] → allPairsSame pairs →
      are_time_points_different_categorical pairs
        = .ok (.degenerate (some 1) (some 1) "Same paired data"))
    ∧ (hasThreeDistinct (pairs.map Prod.fst)
        ∨ hasThreeDistinct (pairs.map Prod.snd) →
      are_time_points_different_categorical pairs
        = .error "No 2x2 table; adapt data or implement Bhapkar test!")
    ∧ (pairs ≠ [] → ¬ allPairsSame pairs →
      ¬ hasThreeDistinct (pairs.map Prod.fst) →
      ¬ hasThreeDistinct (pairs.map Prod.snd) →
      are_time_points_different_categorical pairs
        = .ok (.mcnemarTest (crosstabTable pairs))) := by
  refine ⟨?_, ?_, ?_, ?_⟩
  · rintro rfl
    rfl
  · intro hne hall
    have hr : (crosstabCats (pairs.map Prod.fst)).length = 1 :=
      crosstabCats_length_one _ (by simpa using hne) (by
        intro a ha b hb
        obtain ⟨p, hp, rfl⟩ := List.mem_map.mp ha
        obtain ⟨q, hq, rfl⟩ := List.mem_map.mp hb
        exact (hall p hp q hq).1)
    have hc : (crosstabCats (pairs.map Prod.snd)).length = 1 :=
      crosstabCats_length_one _ (by simpa using hne) (by
        intro a ha b hb
        obtain ⟨p, hp, rfl⟩ := List.mem_map.mp ha
        obtain ⟨q, hq, rfl⟩ := List.mem_map.mp hb
        exact (hall p hp q hq).2)
    simp only [are_time_points_different_categorical]
    rw [if_neg (by omega), if_pos ⟨hr, hc⟩]
  · intro h3
    rcases h3 with ⟨a, ha, b, hb, c, hc, hab, hac, hbc⟩
      | ⟨a, ha, b, hb, c, hc, hab, hac, hbc⟩
    · have h3r : 3 ≤ (crosstabCats (pairs.map Prod.fst)).length :=
        le_length_of_three_distinct _ a b c ((mem_crosstabCats a _).mpr ha)
          ((mem_crosstabCats b _).mpr hb) ((mem_crosstabCats c _).mpr hc)
          hab hac hbc
      simp only [are_time_points_different_categorical]
      rw [if_neg (by omega), if_neg (by rintro ⟨h1, _⟩; omega),
        if_pos (Or.inl (by omega))]
    · have h3c : 3 ≤ (crosstabCats (pairs.map Prod.snd)).length :=
        le_length_of_three_distinct _ a b c ((mem_crosstabCats a _).mpr ha)
          ((mem_crosstabCats b _).mpr hb) ((mem_crosstabCats c _).mpr hc)
          hab hac hbc
      have hpne : pairs ≠ [] := by
        rintro rfl
        simp at ha
      have hrne : crosstabCats (pairs.map Prod.fst) ≠ [] := by
        rw [Ne, crosstabCats_eq_nil]
        simp [hpne]
      have h1r : 0 < (crosstabCats (pairs.map Prod.fst)).length :=
        List.length_pos.mpr hrne
      simp only [are_time_points_different_categorical]
      rw [if_neg (by omega), if_neg (by rintro ⟨_, h1⟩; omega),
        if_pos (Or.inr (by omega))]
  · intro hne hnall hn3f hn3s
    have hrne : crosstabCats (pairs.map Prod.fst) ≠ [] := by
      rw [Ne, crosstabCats_eq_nil]
      simpa using hne
    have hcne : crosstabCats (pairs.map Prod.snd) ≠ [] := by
      rw [Ne, crosstabCats_eq_nil]
      simpa using hne
    have h1r : 0 < (crosstabCats (pairs.map Prod.fst)).length :=
      List.length_pos.mpr hrne
    have h1c : 0 < (crosstabCats (pairs.map Prod.snd)).length :=
      List.length_pos.mpr hcne
    have h2r := crosstabCats_length_le_two _ hn3f
    have h2c := crosstabCats_length_le_two _ hn3s
    have hn11 : ¬ ((crosstabCats (pairs.map Prod.fst)).length = 1
        ∧ (crosstabCats (pairs.map Prod.snd)).length = 1) := by
      rintro ⟨hr1, hc1⟩
      apply hnall
      intro p hp q hq
      exact ⟨all_eq_of_cats_length_one _ hr1 p.1 (List.mem_map_of_mem _ hp)
          q.1 (List.mem_map_of_mem _ hq),
        all_eq_of_cats_length_one _ hc1 p.2 (List.mem_map_of_mem _ hp)
          q.2 (List.mem_map_of_mem _ hq)⟩
    simp only [are_time_points_different_categorical]
    rw [if_neg (by omega), if_neg hn11, if_neg (by rintro (h | h) <;> omega)]

/-- Paired answers for the C7 witness: a genuine 2×2 case. -/
def c7Pairs : List (String × String) :=
  [("yes", "yes"), ("yes", "no"), ("no", "yes")]

/-- Witness for C7 at concrete inputs: the empty, 1×1 and 2×2 cases. -/
theorem claim_C7_witness :
    (c7Pairs ≠ [] ∧ ¬ allPairsSame c7Pairs
      ∧ ¬ hasThreeDistinct (c7Pairs.map Prod.fst)
      ∧ ¬ hasThreeDistinct (c7Pairs.map Prod.snd)
      ∧ crosstabTable c7Pairs = [[0, 1], [1, 1]]
      ∧ allPairsSame [("a", "b"), ("a", "b")])
    ∧ are_time_points_different_categorical []
        = .ok (.degenerate none none "No paired data")
    ∧ are_time_points_different_categorical [("a", "b"), ("a", "b")]
        = .ok (.degenerate (some 1) (some 1) "Same paired data")
    ∧ are_time_points_different_categorical c7Pairs
        = .ok (.mcnemarTest (crosstabTable c7Pairs)) :=
  ⟨⟨by decide, by unfold allPairsSame; decide, by unfold hasThreeDistinct; decide,
      by unfold hasThreeDistinct; decide, by decide, by unfold allPairsSame; decide⟩,
    (claim_C7_paired_categorical []).1 rfl,
    (claim_C7_paired_categorical [("a", "b"), ("a", "b")]).2.1
      (by decide) (by unfold allPairsSame; decide),
    (claim_C7_paired_categorical c7Pairs).2.2.2
      (by decide) (by unfold allPairsSame; decide)
      (by unfold hasThreeDistinct; decide) (by unfold hasThreeDistinct; decide)⟩

/-! ### Comparison results ledger (claim C8) -/

/-- One row of the results ledger (`_write_to_results_table` in
`modules/utils/comparisons.py`); the comparison kind and item form the key,
p-value and effect size may be float NaN (`none`). -/
structure ResultsRow where
  comparison : String
  item : String
  title : String
  p_value : Option ℚ
  statistic : String
  effect_size : Option ℚ
  effect_method : String
  notes : String
deriving DecidableEq, Repr

/-- The key match of `_write_to_results_table`
(`results_data["comparison"].eq(comparison.value) &
results_data["item"].eq(item)`). -/
def sameLedgerKey (row_data r : ResultsRow) : Bool :=
  r.comparison == row_data.comparison && r.item == row_data.item

/-- `_write_to_results_table` from `modules/utils/comparisons.py` as a pure
update of the backing store (`none` models a results file that does not
exist yet).  Returns the written store and whether the duplicate-key warning
was printed: no store → create it holding exactly the new row; no key match
→ append; exactly one match → assign the new row at the matching positions
(the single matching row, overwritten in place); several matches → warn and
write the data back unchanged. -/
def write_to_results_table (store : Option (List ResultsRow))
    (row_data : ResultsRow) : List ResultsRow × Bool :=
  match store with
  | none => ([row_data], false)
  | some results_data =>
    let present_row := results_data.filter (sameLedgerKey row_data)
    if present_row.length = 0 then (results_data ++ [row_data], false)
    else if present_row.length = 1 then
      (results_data.map (fun r => if sameLedgerKey row_data r then row_data else r),
        false)
    else (results_data, true)

theorem filter_length_one_unique_index {α : Type} (p : α → Bool) :
    ∀ (l : List α), (l.filter p).length = 1 →
      ∃ i, ∃ hi : i < l.length, p (l.get ⟨i, hi⟩) = true
        ∧ ∀ j, ∀ hj : j < l.length, j ≠ i → p (l.get ⟨j, hj⟩) = false := by
  intro l
  induction l with
  | nil => intro h; simp at h
  | cons x xs ih =>
    intro h
    rcases hp : p x with _ | _
    · rw [List.filter_cons_of_neg (by simp [hp])] at h
      obtain ⟨i, hi, hpi, huniq⟩ := ih h
      refine ⟨i + 1, by simpa using Nat.succ_lt_succ hi, hpi, ?_⟩
      intro j hj hne
      cases j with
      | zero => simpa using hp
      | succ k =>
        exact huniq k (by simpa using hj) (by omega)
    · rw [List.filter_cons_of_pos (by simp [hp])] at h
      rw [List.length_cons] at h
      have hnil : xs.filter p = [] := List.length_eq_zero.mp (by omega)
      refine ⟨0, by simp, by simpa using hp, ?_⟩
      intro j hj hne
      cases j with
      | zero => exact absurd rfl hne
      | succ k =>
        have hk : k < xs.length := by simpa using hj
        have hmem : xs.get ⟨k, hk⟩ ∈ xs := List.get_mem xs k hk
        have := List.filter_eq_nil_iff.mp hnil _ hmem
        simpa using this

theorem map_replace_eq_set {α : Type} (p : α → Bool) (new : α) :
    ∀ (l : List α) (i : ℕ) (hi : i < l.length),
      p (l.get ⟨i, hi⟩) = true →
      (∀ j, ∀ hj : j < l.length, j ≠ i → p (l.get ⟨j, hj⟩) = false) →
      l.map (fun r => if p r then new else r) = l.set i new := by
  intro l
  induction l with
  | nil => intro i hi; simp at hi
  | cons x xs ih =>
    intro i hi hpi huniq
    cases i with
    | zero =>
      simp only [List.get] at hpi
      simp only [List.map_cons, hpi, if_true, List.set]
      congr 1
      have hall : ∀ y ∈ xs, p y = false := by
        intro y hy
        obtain ⟨⟨k, hk⟩, rfl⟩ := List.mem_iff_get.mp hy
        exact huniq (k + 1) (by simpa using Nat.succ_lt_succ hk) (by omega)
      calc xs.map (fun r => if p r then new else r)
          = xs.map id := List.map_congr_left (by
            intro y hy
            simp [hall y hy])
        _ = xs := List.map_id xs
    | succ k =>
      have hpx : p x = false := huniq 0 (by simp) (by omega)
      simp only [List.map_cons, hpx, Bool.false_eq_true, if_false, List.set]
      congr 1
      exact ih k (by simpa using hi) hpi (fun j hj hne =>
        huniq (j + 1) (by simpa using Nat.succ_lt_succ hj) (by omega))

theorem sameLedgerKey_self (row_data : ResultsRow) :
    sameLedgerKey row_data row_data = true := by
  simp [sameLedgerKey]

theorem filter_not_map_replace {α : Type} (p : α → Bool) (new : α)
    (hnew : p new = true) :
    ∀ l : List α,
      ((l.map (fun r => if p r then new else r)).filter (fun r => !p r))
        = l.filter (fun r => !p r) := by
  intro l
  induction l with
  | nil => rfl
  | cons x xs ih =>
    rcases hp : p x with _ | _
    · simp only [List.map_cons, hp, Bool.false_eq_true, if_false]
      rw [List.filter_cons_of_pos (by simp [hp]),
        List.filter_cons_of_pos (by simp [hp]), ih]
    · simp only [List.map_cons, hp, if_true]
      rw [List.filter_cons_of_neg (by simp [hnew]),
        List.filter_cons_of_neg (by simp [hp]), ih]

/-- Claim C8: upserting a comparison result creates the store with exactly
the new row when none exists; appends when no row matches the (comparison,
item) key; overwrites the unique matching row in place when exactly one
matches; warns and modifies nothing when several match — and in every case
the rows with other keys are unchanged. -/
theorem claim_C8_ledger_upsert (store : Option (List ResultsRow))
    (row_data : ResultsRow) :
    (write_to_results_table none row_data = ([row_data], false))
    ∧ (∀ rows, store = some rows →
        ((rows.filter (sameLedgerKey row_data)).length = 0 →
          write_to_results_table store row_data = (rows ++ [row_data], false))
        ∧ ((rows.filter (sameLedgerKey row_data)).length = 1 →
          ∃ i, ∃ hi : i < rows.length,
            sameLedgerKey row_data (rows.get ⟨i, hi⟩) = true
            ∧ (∀ j, ∀ hj : j < rows.length, j ≠ i →
                sameLedgerKey row_data (rows.get ⟨j, hj⟩) = false)
            ∧ write_to_results_table store row_data = (rows.set i row_data, false))
        ∧ (2 ≤ (rows.filter (sameLedgerKey row_data)).length →
          write_to_results_table store row_data = (rows, true)))
    ∧ ((write_to_results_table store row_data).1.filter
          (fun r => !sameLedgerKey row_data r)
        = (store.getD []).filter (fun r => !sameLedgerKey row_data r)) := by
  refine ⟨rfl, ?_, ?_⟩
  · rintro rows rfl
    refine ⟨?_, ?_, ?_⟩
    · intro h0
      simp only [write_to_results_table]
      rw [if_pos h0]
    · intro h1
      obtain ⟨i, hi, hpi, huniq⟩ :=
        filter_length_one_unique_index (sameLedgerKey row_data) rows h1
      refine ⟨i, hi, hpi, huniq, ?_⟩
      simp only [write_to_results_table]
      rw [if_neg (by omega), if_pos h1,
        map_replace_eq_set (sameLedgerKey row_data) row_data rows i hi hpi huniq]
    · intro h2
      simp only [write_to_results_table]
      rw [if_neg (by omega), if_neg (by omega)]
  · rcases store with _ | rows
    · simp [write_to_results_table, sameLedgerKey_self]
    · simp only [write_to_results_table, Option.getD_some]
      by_cases h0 : (rows.filter (sameLedgerKey row_data)).length = 0
      · rw [if_pos h0, List.filter_append]
        simp [sameLedgerKey_self]
      · by_cases h1 : (rows.filter (sameLedgerKey row_data)).length = 1
        · rw [if_neg h0, if_pos h1]
          exact filter_not_map_replace (sameLedgerKey row_data) row_data
            (sameLedgerKey_self row_data) rows
        · rw [if_neg h0, if_neg h1]

/-- Existing ledger rows for the C8 witness. -/
def c8Existing : List ResultsRow :=
  [⟨"study_groups", "score", "T1", none, "t-test", none, "d", ""⟩,
   ⟨"time_points", "score", "T2", none, "wilcoxon", none, "r", ""⟩]

/-- New result whose key matches exactly one existing row. -/
def c8New : ResultsRow :=
  ⟨"study_groups", "score", "T1b", none, "mannwhitneyu", none, "r", ""⟩

/-- New result whose key matches no existing row. -/
def c8Fresh : ResultsRow :=
  ⟨"study_groups", "other", "T3", none, "fisher", none, "V", ""⟩

/-- A store with a duplicated key (the should-not-happen case). -/
def c8DupStore : List ResultsRow :=
  [⟨"study_groups", "score", "T1", none, "t-test", none, "d", ""⟩,
   ⟨"study_groups", "score", "T1x", none, "fisher", none, "V", ""⟩]

/-- Witness for C8 at concrete inputs: create, append, overwrite-in-place and
duplicate-warning cases. -/
theorem claim_C8_witness :
    ((c8Existing.filter (sameLedgerKey c8New)).length = 1
      ∧ (c8Existing.filter (sameLedgerKey c8Fresh)).length = 0
      ∧ 2 ≤ (c8DupStore.filter (sameLedgerKey c8New)).length)
    ∧ write_to_results_table none c8New = ([c8New], false)
    ∧ write_to_results_table (some c8Existing) c8Fresh
        = (c8Existing ++ [c8Fresh], false)
    ∧ (∃ i, ∃ hi : i < c8Existing.length,
        sameLedgerKey c8New (c8Existing.get ⟨i, hi⟩) = true
        ∧ (∀ j, ∀ hj : j < c8Existing.length, j ≠ i →
            sameLedgerKey c8New (c8Existing.get ⟨j, hj⟩) = false)
        ∧ write_to_results_table (some c8Existing) c8New
            = (c8Existing.set i c8New, false))
    ∧ write_to_results_table (some c8DupStore) c8New = (c8DupStore, true) :=
  ⟨⟨by decide, by decide, by decide⟩,
    (claim_C8_ledger_upsert none c8New).1,
    ((claim_C8_ledger_upsert (some c8Existing) c8Fresh).2.1 c8Existing rfl).1
      (by decide),
    ((claim_C8_ledger_upsert (some c8Existing) c8New).2.1 c8Existing rfl).2.1
      (by decide),
    ((claim_C8_ledger_upsert (some c8DupStore) c8New).2.1 c8DupStore rfl).2.2
      (by decide)⟩

/-! ### Effect interpretation (claim C10) -/

/-- A Python float that only ever gets compared: NaN or an exact value.
Every IEEE comparison with NaN is false. -/
inductive PyFloat where
  | nan
  | val (q : ℚ)
deriving DecidableEq, Repr

/-- `abs()` on such a float (`abs(nan)` is NaN). -/
def PyFloat.pyAbs : PyFloat → PyFloat
  | .nan => .nan
  | .val q => .val |q|

/-- IEEE `>` against a threshold: false whenever the left operand is NaN. -/
def PyFloat.gtThreshold : PyFloat → ℚ → Bool
  | .nan, _ => false
  | .val q, t => decide (t < q)

/-- `EffectInterpretation` from `modules/utils/statistics.py`. -/
inductive EffectInterpretation where
  | SMALL
  | MEDIUM
  | LARGE
deriving DecidableEq, Repr

/-- `EFFECT_MEASURES` (difference measures) from
`modules/utils/statistics.py`. -/
def EFFECT_MEASURES : List String := ["d", "r"]

/-- `ASSOCIATION_MEASURES` from `modules/utils/statistics.py`. -/
def ASSOCIATION_MEASURES : List String := ["V", "ɸ"]

/-- `interpret_effect` from `modules/utils/statistics.py`: an unrecognized
effect-method tag raises; otherwise the absolute effect is compared against
the upper thresholds 0.5 (medium) and then 0.3 (small), falling through to
SMALL — and every comparison with a NaN effect is false. -/
def interpret_effect (effect_method : String) (effect : PyFloat) :
    Except String EffectInterpretation :=
  if effect_method ∈ EFFECT_MEASURES ++ ASSOCIATION_MEASURES then
    let absolute_effect := effect.pyAbs
    if absolute_effect.gtThreshold (1/2) then .ok .LARGE
    else if absolute_effect.gtThreshold (3/10) then .ok .MEDIUM
    else .ok .SMALL
  else .error ("Need to add effect interpretations for " ++ effect_method ++ "!")

/-- Claim C10: for each recognized effect-size method tag and a NaN effect
(a valid result of degenerate contingency tables), `interpret_effect`
returns SMALL rather than failing or returning a distinguished undefined
value, because every threshold comparison with NaN is false. -/
theorem claim_C10_nan_effect_is_small :
    interpret_effect "d" .nan = .ok .SMALL
    ∧ interpret_effect "r" .nan = .ok .SMALL
    ∧ interpret_effect "V" .nan = .ok .SMALL
    ∧ interpret_effect "ɸ" .nan = .ok .SMALL :=
  ⟨rfl, rfl, rfl, rfl⟩
